import Mathlib

/-!
Shallow embedding of the feature-voting backend (FastAPI + SQLAlchemy) found in
`backend/app`.  Entities are the three relational tables of the migration
`001_initial_schema.py`; route handlers are translated line by line from
`app/routes/features.py`, `app/routes/users.py`, the exception mappers from
`app/core/exceptions.py`, and the pagination envelope from
`app/schemas/pagination.py`.

Modelling conventions:
* the database session is an explicit record of three lists (rows in insertion
  order); `db.add` appends, `db.delete` removes the first matching row, an ORM
  `query(...).first()` is `List.find?`;
* every handler returns the session state at exit together with its outcome, so
  mutations performed before a raise are visible in the returned state (in the
  translated code no mutation precedes a raise, and the theorems below verify
  exactly that);
* surrogate `id` columns are `Int` (SQL INTEGER); autoincrement is modelled as
  max-of-ids + 1; `created_at` timestamps are irrelevant to every claim and are
  omitted from the row records;
* Python `str.strip()`, `str.lower()`, `c in s` and `sub in s` are modelled by
  the kernel-computable `pyStrip`, `pyLower`, `pyContainsChar`, `pyContains`
  over the underlying character lists.
-/

namespace FeatureVoting

/-- A row of the `features` table (`app/models/feature.py`); `created_at` omitted.
`vote_count` is `Int` because the column is a plain SQL INTEGER and the
administrative overwrite in `update_feature` can store any integer. -/
structure Feature where
  id : Int
  title : String
  description : String
  author_id : Int
  vote_count : Int
deriving Repr, DecidableEq

/-- A row of the `votes` table (migration `001_initial_schema.py`); the surrogate
`id` and `created_at` columns are omitted — no translated handler reads them. -/
structure Vote where
  user_id : Int
  feature_id : Int
deriving Repr, DecidableEq

/-- A row of the `users` table; `created_at` omitted. -/
structure User where
  id : Int
  username : String
  email : String
deriving Repr, DecidableEq

/-- The persistent store: the three tables, rows in insertion order. -/
structure DB where
  features : List Feature
  votes : List Vote
  users : List User
deriving Repr, DecidableEq

/-- The failures a translated handler can raise: the `FeatureVotingException`
subclasses of `app/core/exceptions.py` plus FastAPI's `HTTPException(400)`
used by the id guards. -/
inductive ApiError where
  | httpBadRequest (detail : String)
  | featureNotFound
  | duplicateVote
  | voteNotFound
  | userNotFound
  | invalidInput (message : String)
  | databaseError (message : String)
deriving Repr, DecidableEq

/-- Status code assigned to each raised error by the exception handlers of
`app/core/exceptions.py` (`feature_voting_exception_handler` for the domain
exceptions, `http_exception_handler` for `HTTPException`). -/
def errorStatus : ApiError → Nat
  | .httpBadRequest _ => 400
  | .featureNotFound => 404
  | .duplicateVote => 409
  | .voteNotFound => 404
  | .userNotFound => 404
  | .invalidInput _ => 400
  | .databaseError _ => 500

/-- Python's `str.strip()`: remove leading and trailing whitespace.
Implemented over the character list so that it is kernel-computable. -/
def pyStrip (s : String) : String :=
  ⟨((s.data.dropWhile Char.isWhitespace).reverse.dropWhile Char.isWhitespace).reverse⟩

/-- Python's `str.lower()`, over the character list. -/
def pyLower (s : String) : String :=
  ⟨s.data.map Char.toLower⟩

/-- Python's `c in s` for a single character. -/
def pyContainsChar (s : String) (c : Char) : Bool :=
  s.data.contains c

/-- Does `needle` occur as a contiguous run inside `haystack`? -/
def containsSubList : List Char → List Char → Bool
  | [], needle => needle.isEmpty
  | c :: rest, needle => needle.isPrefixOf (c :: rest) || containsSubList rest needle

/-- Python's `needle in haystack` substring test. -/
def pyContains (haystack needle : String) : Bool :=
  containsSubList haystack.data needle.data

/-- `integrity_error_handler` (`app/core/exceptions.py`): classifies a database
`IntegrityError` by its message, returning (status code, payload `type`). -/
def integrity_error_handler (error_msg : String) : Nat × String :=
  if pyContains error_msg "_user_feature_vote" then
    (400, "duplicate_vote_error")
  else
    (500, "integrity_error")

/-- ORM row lookup `db.query(FeatureModel).filter(FeatureModel.id == fid).first()`. -/
def lookupFeature (fid : Int) (db : DB) : Option Feature :=
  db.features.find? (fun f => f.id == fid)

/-- ORM row lookup for a vote by (user_id, feature_id). -/
def lookupVote (u fid : Int) (db : DB) : Option Vote :=
  db.votes.find? (fun v => v.user_id == u && v.feature_id == fid)

/-- In-place mutation of the single ORM row with the given primary key:
applies `g` to the first feature whose id matches. -/
def updateFirstFeature (fid : Int) (g : Feature → Feature) : List Feature → List Feature
  | [] => []
  | f :: fs => if f.id == fid then g f :: fs else f :: updateFirstFeature fid g fs

/-- Number of vote rows for a given feature id. -/
def countVotesFor (fid : Int) (votes : List Vote) : Nat :=
  votes.countP (fun v => v.feature_id == fid)

/-- `vote_feature` (`app/routes/features.py`, POST /api/features/{id}/vote),
translated line by line.  Returns the session state at exit and the outcome
(the returned `vote_count` on success). -/
def vote_feature (feature_id current_user_id : Int) (db : DB) : DB × Except ApiError Int :=
  if feature_id ≤ 0 then
    (db, .error (.httpBadRequest "Feature ID must be positive"))
  else
    match lookupFeature feature_id db with
    | none => (db, .error .featureNotFound)
    | some feature =>
      match lookupVote current_user_id feature_id db with
      | some _ => (db, .error .duplicateVote)
      | none =>
        let db' : DB :=
          { db with
            votes := db.votes ++ [⟨current_user_id, feature_id⟩],
            features := updateFirstFeature feature_id
              (fun f => { f with vote_count := f.vote_count + 1 }) db.features }
        (db', .ok (feature.vote_count + 1))

/-- `remove_vote` (`app/routes/features.py`, DELETE /api/features/{id}/vote),
translated line by line.  `db.delete(db_vote)` removes the row found by the
query, i.e. the first (user_id, feature_id) match. -/
def remove_vote (feature_id current_user_id : Int) (db : DB) : DB × Except ApiError Int :=
  if feature_id ≤ 0 then
    (db, .error (.httpBadRequest "Feature ID must be positive"))
  else
    match lookupFeature feature_id db with
    | none => (db, .error .featureNotFound)
    | some feature =>
      match lookupVote current_user_id feature_id db with
      | none => (db, .error .voteNotFound)
      | some _ =>
        let db' : DB :=
          { db with
            votes := db.votes.eraseP
              (fun v => v.user_id == current_user_id && v.feature_id == feature_id),
            features := updateFirstFeature feature_id
              (fun f => { f with vote_count := max 0 (f.vote_count - 1) }) db.features }
        (db', .ok (max 0 (feature.vote_count - 1)))

/-- The body of `FeatureUpdate` (`app/schemas/feature.py`): three optional
fields with no validators and no length constraints. -/
structure FeatureUpdate where
  title : Option String := none
  description : Option String := none
  vote_count : Option Int := none
deriving Repr, DecidableEq

/-- The `setattr` loop of `update_feature` over `feature.dict(exclude_unset=True)`:
each supplied field overwrites the row's column, unsupplied fields are untouched. -/
def applyFeatureUpdate (upd : FeatureUpdate) (f : Feature) : Feature :=
  { f with
    title := upd.title.getD f.title,
    description := upd.description.getD f.description,
    vote_count := upd.vote_count.getD f.vote_count }

/-- `update_feature` (`app/routes/features.py`, PUT /api/features/{id}). -/
def update_feature (feature_id : Int) (upd : FeatureUpdate) (db : DB) :
    DB × Except ApiError Feature :=
  if feature_id ≤ 0 then
    (db, .error (.httpBadRequest "Feature ID must be positive"))
  else
    match lookupFeature feature_id db with
    | none => (db, .error .featureNotFound)
    | some f =>
      ({ db with features := updateFirstFeature feature_id (applyFeatureUpdate upd) db.features },
       .ok (applyFeatureUpdate upd f))

/-- The paginated envelope of `app/schemas/pagination.py`, specialised to
feature items (the only instantiation the translated routes use). -/
structure PaginatedResponse where
  items : List Feature
  total_count : Nat
  page : Nat
  page_size : Nat
  total_pages : Nat
  has_next : Bool
  has_previous : Bool
deriving Repr, DecidableEq

/-- `PaginatedResponse.create` (`app/schemas/pagination.py`):
`total_pages = ceil(total_count / page_size) if total_count > 0 else 1`.
Python's `math.ceil` of the exact quotient of positive integers is written as
the integer formula `(total_count + page_size - 1) / page_size`. -/
def PaginatedResponse.create (items : List Feature) (total_count page page_size : Nat) :
    PaginatedResponse :=
  let total_pages := if total_count > 0 then (total_count + page_size - 1) / page_size else 1
  { items := items
    total_count := total_count
    page := page
    page_size := page_size
    total_pages := total_pages
    has_next := page < total_pages
    has_previous := page > 1 }

/-- `read_features` (`app/routes/features.py`, GET /api/features): counts the
table, sorts by `vote_count` descending (`order_by(vote_count.desc())`, a
stable sort on the insertion order), applies `offset = (page-1)*page_size` and
`limit = page_size` (`PaginationParams`), and wraps the page in the envelope. -/
def read_features (page page_size : Nat) (db : DB) : PaginatedResponse :=
  let total_count := db.features.length
  let sorted := db.features.mergeSort (fun a b => b.vote_count ≤ a.vote_count)
  let features := (sorted.drop ((page - 1) * page_size)).take page_size
  PaginatedResponse.create features total_count page page_size

/-- Pydantic field validation for `FeatureCreate.title`
(`app/schemas/feature.py`): the `Field(min_length=3, max_length=100)`
constraints run on the raw value first (pydantic checks field constraints
before custom validators), then `validate_title` rejects blank values and
returns `v.strip()`. -/
def validateTitleField (v : String) : Except String String :=
  if v.length < 3 then .error "ensure this value has at least 3 characters"
  else if 100 < v.length then .error "ensure this value has at most 100 characters"
  else if pyStrip v = "" then .error "Title cannot be empty or just whitespace"
  else .ok (pyStrip v)

/-- Pydantic field validation for `FeatureCreate.description`
(`Field(min_length=10, max_length=1000)` then `validate_description`). -/
def validateDescriptionField (v : String) : Except String String :=
  if v.length < 10 then .error "ensure this value has at least 10 characters"
  else if 1000 < v.length then .error "ensure this value has at most 1000 characters"
  else if pyStrip v = "" then .error "Description cannot be empty or just whitespace"
  else .ok (pyStrip v)

/-- A validated `FeatureCreate` body. -/
structure FeatureCreate where
  title : String
  description : String
deriving Repr, DecidableEq

/-- Whole-model validation of a `FeatureCreate` request body: pydantic
validates every field and reports all failing fields; the route-level
`validation_exception_handler` (`app/core/exceptions.py`) renders each as
`"<field>: <message>"`. -/
def featureCreateValidate (title description : String) :
    Except (List String) FeatureCreate :=
  match validateTitleField title, validateDescriptionField description with
  | .ok t, .ok d => .ok ⟨t, d⟩
  | r1, r2 =>
    .error
      ((match r1 with | .error m => ["title: " ++ m] | .ok _ => []) ++
       (match r2 with | .error m => ["description: " ++ m] | .ok _ => []))

/-- Autoincrement for the `features` table, modelled as max-of-ids + 1. -/
def nextFeatureId (db : DB) : Int :=
  (db.features.map (fun f => f.id)).foldr max 0 + 1

/-- `create_feature` (`app/routes/features.py`, POST /api/features): the body
is validated by pydantic before the handler runs; on success the handler
inserts a row whose `vote_count` column takes its schema default 0
(`app/models/feature.py`: `Column(Integer, default=0, nullable=False)`). -/
def create_feature (title description : String) (current_user_id : Int) (db : DB) :
    DB × Except (List String) Feature :=
  match featureCreateValidate title description with
  | .error errs => (db, .error errs)
  | .ok body =>
    let f : Feature :=
      { id := nextFeatureId db
        title := body.title
        description := body.description
        author_id := current_user_id
        vote_count := 0 }
    ({ db with features := db.features ++ [f] }, .ok f)

/-- Modelled from the spec: the entity store's uniqueness enforcement for the
`users` table.  `app/models/user.py` is not under `src/`; the unique indexes
`ix_users_username` and `ix_users_email` appear in the migration
`001_initial_schema.py`, and the spec (§4.2) says violating writes raise a
distinguishable constraint violation naming the failed constraint.  The
message shape is the backing store's `UNIQUE constraint failed: users.<col>`. -/
def insertUser (u : User) (db : DB) : Except String DB :=
  if db.users.any (fun x => x.username == u.username) then
    .error "UNIQUE constraint failed: users.username"
  else if db.users.any (fun x => x.email == u.email) then
    .error "UNIQUE constraint failed: users.email"
  else
    .ok { db with users := db.users ++ [u] }

/-- Autoincrement for the `users` table. -/
def nextUserId (db : DB) : Int :=
  (db.users.map (fun u => u.id)).foldr max 0 + 1

/-- `create_user` (`app/routes/users.py`, POST /api/users), translated line by
line: the two advisory checks, then the insert, with the `IntegrityError`
branch rolling back and classifying by substring of the lowercased message. -/
def create_user (username email : String) (db : DB) : DB × Except ApiError User :=
  if username = "" || (pyStrip username).length < 2 then
    (db, .error (.invalidInput "Username must be at least 2 characters long"))
  else if email = "" || !(pyContainsChar email '@') then
    (db, .error (.invalidInput "Valid email address is required"))
  else
    let u : User := { id := nextUserId db, username := pyStrip username, email := pyLower (pyStrip email) }
    match insertUser u db with
    | .ok db' => (db', .ok u)
    | .error msg =>
      if pyContains (pyLower msg) "username" then
        (db, .error (.invalidInput "Username already exists"))
      else if pyContains (pyLower msg) "email" then
        (db, .error (.invalidInput "Email already exists"))
      else
        (db, .error (.databaseError "Failed to create user due to data constraint"))

/-- `read_user` (`app/routes/users.py`, GET /api/users/{id}): the positivity
guard, then the lookup; `UserNotFoundException` is re-raised unchanged through
the `except` clauses. -/
def read_user (user_id : Int) (db : DB) : Except ApiError User :=
  if user_id ≤ 0 then .error (.invalidInput "User ID must be positive")
  else
    match db.users.find? (fun u => u.id == user_id) with
    | none => .error .userNotFound
    | some u => .ok u

/-- A ledger operation: one call to the cast or retract endpoint. -/
inductive LedgerOp where
  | cast (user_id feature_id : Int)
  | retract (user_id feature_id : Int)
deriving Repr, DecidableEq

/-- Run one ledger operation through its route handler. -/
def runOp (op : LedgerOp) (db : DB) : DB × Except ApiError Int :=
  match op with
  | .cast u fid => vote_feature fid u db
  | .retract u fid => remove_vote fid u db

/-- Run a sequence of ledger operations, requiring each to succeed
individually; `none` when some call in the sequence fails. -/
def runOpsOk : List LedgerOp → DB → Option DB
  | [], db => some db
  | op :: ops, db =>
    match runOp op db with
    | (db', .ok _) => runOpsOk ops db'
    | (_, .error _) => none

/-- A sample catalog of 25 features, used to exercise the pagination laws. -/
def sampleCatalog : DB :=
  ⟨(List.range 25).map (fun i => ⟨(i : Int) + 1, "Feature", "A description", 1, (i : Int)⟩),
   [], []⟩

/-- The denormalized-counter invariant of the spec: every feature's
`vote_count` equals the number of vote rows that reference it. -/
def voteCountInv (db : DB) : Prop :=
  ∀ f ∈ db.features, f.vote_count = (countVotesFor f.id db.votes : Int)

/-- Primary-key well-formedness of the `features` table: ids are distinct. -/
def featureIdsNodup (db : DB) : Prop :=
  (db.features.map (fun f => f.id)).Nodup

instance (db : DB) : Decidable (voteCountInv db) := by
  unfold voteCountInv; infer_instance

instance (db : DB) : Decidable (featureIdsNodup db) := by
  unfold featureIdsNodup; infer_instance

/-! ### Helper lemmas about the store operations -/

theorem map_id_updateFirstFeature (fid : Int) (g : Feature → Feature)
    (hg : ∀ f, (g f).id = f.id) (l : List Feature) :
    (updateFirstFeature fid g l).map (fun f => f.id) = l.map (fun f => f.id) := by
  induction l with
  | nil => rfl
  | cons a l ih =>
    by_cases ha : a.id = fid
    · simp only [updateFirstFeature]
      rw [if_pos (by simp [ha])]
      simp [hg]
    · simp only [updateFirstFeature]
      rw [if_neg (by simp [ha])]
      simp [ih]

theorem find?_updateFirstFeature_self (fid : Int) (g : Feature → Feature)
    (hg : ∀ f, (g f).id = f.id) (l : List Feature) (f : Feature)
    (h : l.find? (fun x => x.id == fid) = some f) :
    (updateFirstFeature fid g l).find? (fun x => x.id == fid) = some (g f) := by
  induction l with
  | nil => simp at h
  | cons a l ih =>
    by_cases ha : a.id = fid
    · rw [List.find?_cons_of_pos _ (by simp [ha])] at h
      obtain rfl : a = f := by injection h
      simp only [updateFirstFeature]
      rw [if_pos (by simp [ha])]
      rw [List.find?_cons_of_pos _ (by simp [hg, ha])]
    · rw [List.find?_cons_of_neg _ (by simp [ha])] at h
      simp only [updateFirstFeature]
      rw [if_neg (by simp [ha])]
      rw [List.find?_cons_of_neg _ (by simp [ha])]
      exact ih h

theorem find?_updateFirstFeature_ne (fid fid2 : Int) (hne : fid2 ≠ fid)
    (g : Feature → Feature) (hg : ∀ f, (g f).id = f.id) (l : List Feature) :
    (updateFirstFeature fid g l).find? (fun x => x.id == fid2) =
      l.find? (fun x => x.id == fid2) := by
  induction l with
  | nil => rfl
  | cons a l ih =>
    by_cases ha : a.id = fid
    · simp only [updateFirstFeature]
      rw [if_pos (by simp [ha])]
      rw [List.find?_cons_of_neg _ (by simp [hg, ha]; exact fun hc => hne hc.symm)]
      rw [List.find?_cons_of_neg _ (by simp [ha]; exact fun hc => hne hc.symm)]
    · simp only [updateFirstFeature]
      rw [if_neg (by simp [ha])]
      by_cases ha2 : a.id = fid2
      · rw [List.find?_cons_of_pos _ (by simp [ha2]), List.find?_cons_of_pos _ (by simp [ha2])]
      · rw [List.find?_cons_of_neg _ (by simp [ha2]), List.find?_cons_of_neg _ (by simp [ha2])]
        exact ih

theorem updateFirstFeature_eq_map (fid : Int) (g : Feature → Feature) (l : List Feature)
    (hl : (l.map (fun f => f.id)).Nodup) :
    updateFirstFeature fid g l = l.map (fun f => if f.id == fid then g f else f) := by
  induction l with
  | nil => rfl
  | cons a l ih =>
    simp only [List.map_cons, List.nodup_cons] at hl
    obtain ⟨hni, hnd⟩ := hl
    by_cases ha : a.id = fid
    · simp only [updateFirstFeature, List.map_cons]
      rw [if_pos (by simp [ha]), if_pos (by simp [ha])]
      have hrest : ∀ x ∈ l, (if x.id == fid then g x else x) = x := by
        intro x hx
        have hxid : ¬(x.id = fid) := by
          intro hc
          exact hni (by
            rw [ha, ← hc]
            exact List.mem_map_of_mem (fun f => f.id) hx)
        rw [if_neg (by simp [hxid])]
      have : l.map (fun x => if x.id == fid then g x else x) = l :=
        (List.map_congr_left hrest).trans (List.map_id' l)
      rw [this]
    · simp only [updateFirstFeature, List.map_cons]
      rw [if_neg (by simp [ha]), if_neg (by simp [ha])]
      rw [ih hnd]

theorem countP_eq_countP_eraseP (p q : Vote → Bool) (l : List Vote) (v0 : Vote)
    (h : l.find? q = some v0) :
    l.countP p = (l.eraseP q).countP p + (if p v0 then 1 else 0) := by
  induction l with
  | nil => simp at h
  | cons a l ih =>
    by_cases hq : q a = true
    · rw [List.find?_cons_of_pos _ hq] at h
      obtain rfl : a = v0 := by injection h
      rw [List.eraseP_cons_of_pos hq, List.countP_cons]
    · rw [List.find?_cons_of_neg _ hq] at h
      rw [List.eraseP_cons_of_neg hq, List.countP_cons, List.countP_cons, ih h]
      omega

theorem vote_feature_ok_inv (fid u : Int) (db db₁ : DB) (n : Int)
    (h : vote_feature fid u db = (db₁, .ok n)) :
    ∃ feature, lookupFeature fid db = some feature ∧ lookupVote u fid db = none ∧
      db₁ = { db with
        votes := db.votes ++ [⟨u, fid⟩],
        features := updateFirstFeature fid
          (fun f => { f with vote_count := f.vote_count + 1 }) db.features } ∧
      n = feature.vote_count + 1 := by
  unfold vote_feature at h
  split at h
  · exact absurd (congrArg Prod.snd h) (by simp)
  · split at h
    · exact absurd (congrArg Prod.snd h) (by simp)
    · split at h
      · exact absurd (congrArg Prod.snd h) (by simp)
      · refine ⟨_, by assumption, by assumption, ?_, ?_⟩
        · exact (congrArg Prod.fst h).symm
        · have := congrArg Prod.snd h
          simp only at this
          injection this
          omega

theorem remove_vote_ok_inv (fid u : Int) (db db₁ : DB) (n : Int)
    (h : remove_vote fid u db = (db₁, .ok n)) :
    ∃ feature v, lookupFeature fid db = some feature ∧ lookupVote u fid db = some v ∧
      db₁ = { db with
        votes := db.votes.eraseP (fun w => w.user_id == u && w.feature_id == fid),
        features := updateFirstFeature fid
          (fun f => { f with vote_count := max 0 (f.vote_count - 1) }) db.features } ∧
      n = max 0 (feature.vote_count - 1) := by
  unfold remove_vote at h
  split at h
  · exact absurd (congrArg Prod.snd h) (by simp)
  · split at h
    · exact absurd (congrArg Prod.snd h) (by simp)
    · split at h
      · exact absurd (congrArg Prod.snd h) (by simp)
      · refine ⟨_, _, by assumption, by assumption, ?_, ?_⟩
        · exact (congrArg Prod.fst h).symm
        · have := congrArg Prod.snd h
          simp only at this
          injection this
          omega

theorem countVotesFor_append_one (fid x u : Int) (votes : List Vote) :
    countVotesFor x (votes ++ [⟨u, fid⟩]) =
      countVotesFor x votes + (if fid = x then 1 else 0) := by
  unfold countVotesFor
  rw [List.countP_append]
  simp [List.countP_cons]

theorem cast_preserves_inv (fid u : Int) (db db₁ : DB) (n : Int)
    (h : vote_feature fid u db = (db₁, .ok n))
    (hnd : featureIdsNodup db) (hinv : voteCountInv db) :
    featureIdsNodup db₁ ∧ voteCountInv db₁ := by
  obtain ⟨feature, _, _, rfl, rfl⟩ := vote_feature_ok_inv fid u db db₁ n h
  constructor
  · unfold featureIdsNodup at hnd ⊢
    simp only
    rw [map_id_updateFirstFeature fid
      (fun f => { f with vote_count := f.vote_count + 1 }) (fun f => rfl) db.features]
    exact hnd
  · intro f' hf'
    simp only at hf' ⊢
    rw [updateFirstFeature_eq_map fid _ db.features hnd] at hf'
    obtain ⟨f, hf, rfl⟩ := List.mem_map.mp hf'
    have hold := hinv f hf
    by_cases hfi : f.id = fid
    · rw [if_pos (by simp [hfi])]
      simp only
      rw [countVotesFor_append_one]
      rw [if_pos hfi.symm]
      push_cast
      omega
    · rw [if_neg (by simp [hfi])]
      rw [countVotesFor_append_one]
      rw [if_neg (fun hc => hfi hc.symm)]
      simpa using hold

theorem retract_preserves_inv (fid u : Int) (db db₁ : DB) (n : Int)
    (h : remove_vote fid u db = (db₁, .ok n))
    (hnd : featureIdsNodup db) (hinv : voteCountInv db) :
    featureIdsNodup db₁ ∧ voteCountInv db₁ := by
  obtain ⟨feature, v, _, hv, rfl, rfl⟩ := remove_vote_ok_inv fid u db db₁ n h
  have hq := List.find?_some
    (show db.votes.find? (fun w => w.user_id == u && w.feature_id == fid) = some v from hv)
  have hvfid : v.feature_id = fid := by
    simp only [Bool.and_eq_true, beq_iff_eq] at hq
    exact hq.2
  constructor
  · unfold featureIdsNodup at hnd ⊢
    simp only
    rw [map_id_updateFirstFeature fid
      (fun f => { f with vote_count := max 0 (f.vote_count - 1) }) (fun f => rfl) db.features]
    exact hnd
  · intro f' hf'
    simp only at hf' ⊢
    rw [updateFirstFeature_eq_map fid _ db.features hnd] at hf'
    obtain ⟨f, hf, rfl⟩ := List.mem_map.mp hf'
    have hold := hinv f hf
    have hcount := countP_eq_countP_eraseP (fun w => w.feature_id == f.id)
      (fun w => w.user_id == u && w.feature_id == fid) db.votes v hv
    by_cases hfi : f.id = fid
    · rw [if_pos (by simp [hfi])]
      simp only
      rw [if_pos (by simp [hvfid, hfi])] at hcount
      unfold countVotesFor at hold ⊢
      rw [hold] at *
      omega
    · rw [if_neg (by simp [hfi])]
      rw [if_neg (by simp [hvfid]; exact fun hc => hfi hc.symm)] at hcount
      unfold countVotesFor at hold ⊢
      omega

theorem runOp_ok_preserves (op : LedgerOp) (db db₁ : DB) (n : Int)
    (h : runOp op db = (db₁, .ok n))
    (hnd : featureIdsNodup db) (hinv : voteCountInv db) :
    featureIdsNodup db₁ ∧ voteCountInv db₁ := by
  cases op with
  | cast u fid => exact cast_preserves_inv fid u db db₁ n h hnd hinv
  | retract u fid => exact retract_preserves_inv fid u db db₁ n h hnd hinv

/-! ### The claims -/

/-- C1: For every Feature, after any finite sequence of CastVote and
RetractVote operations that each individually succeeded (starting from a
well-formed store in which every feature's `vote_count` equals the number of
Vote rows referencing it — in particular a freshly created feature with
`vote_count = 0` and no votes), every feature's `vote_count` field equals the
number of Vote rows whose `feature_id` matches that feature's id. -/
theorem ledger_invariant_preserved (ops : List LedgerOp) (db db' : DB)
    (hnd : featureIdsNodup db) (hinv : voteCountInv db)
    (h : runOpsOk ops db = some db') : voteCountInv db' := by
  induction ops generalizing db with
  | nil =>
    simp only [runOpsOk] at h
    injection h with h
    exact h ▸ hinv
  | cons op ops ih =>
    simp only [runOpsOk] at h
    cases hstep : runOp op db with
    | mk db₁ r =>
      rw [hstep] at h
      cases r with
      | ok n =>
        obtain ⟨hnd₁, hinv₁⟩ := runOp_ok_preserves op db db₁ n hstep hnd hinv
        exact ih db₁ hnd₁ hinv₁ h
      | error e => exact absurd h (by simp)

/-- Witness for C1: a feature created with `vote_count = 0`, two successful
casts and one successful retract; the final counter matches the ledger. -/
theorem ledger_invariant_preserved_witness :
    voteCountInv
      { features := [⟨1, "Add dark mode", "Please add a dark mode option", 1, 1⟩],
        votes := [⟨3, 1⟩], users := [] } :=
  ledger_invariant_preserved
    [LedgerOp.cast 2 1, LedgerOp.cast 3 1, LedgerOp.retract 2 1]
    { features := [⟨1, "Add dark mode", "Please add a dark mode option", 1, 0⟩],
      votes := [], users := [] }
    { features := [⟨1, "Add dark mode", "Please add a dark mode option", 1, 1⟩],
      votes := [⟨3, 1⟩], users := [] }
    (by decide) (by decide) (by decide)

/-- C2: For a positive feature id, CastVote fails with FeatureNotFound when no
feature with that id exists, fails with DuplicateVote when a Vote row for
(user_id, feature_id) already exists, and otherwise appends exactly one Vote
row for (user_id, feature_id), increments exactly that feature's `vote_count`
by 1 (every other feature unchanged), and returns the new `vote_count`.
(Non-positive ids are rejected by the guard before the lookup; see C10.) -/
theorem vote_feature_spec (db : DB) (u fid : Int) (hfid : 0 < fid) :
    (lookupFeature fid db = none →
      vote_feature fid u db = (db, .error .featureNotFound)) ∧
    (∀ f, lookupFeature fid db = some f → (lookupVote u fid db).isSome = true →
      vote_feature fid u db = (db, .error .duplicateVote)) ∧
    (∀ f, lookupFeature fid db = some f → lookupVote u fid db = none →
      (vote_feature fid u db).2 = .ok (f.vote_count + 1) ∧
      (vote_feature fid u db).1.votes = db.votes ++ [⟨u, fid⟩] ∧
      lookupFeature fid (vote_feature fid u db).1 =
        some { f with vote_count := f.vote_count + 1 } ∧
      (∀ fid2, fid2 ≠ fid →
        lookupFeature fid2 (vote_feature fid u db).1 = lookupFeature fid2 db) ∧
      (vote_feature fid u db).1.users = db.users) := by
  have hpos : ¬(fid ≤ 0) := by omega
  refine ⟨?_, ?_, ?_⟩
  · intro hn
    unfold vote_feature
    rw [if_neg hpos, hn]
  · intro f hf hv
    obtain ⟨v, hveq⟩ := Option.isSome_iff_exists.mp hv
    unfold vote_feature
    rw [if_neg hpos, hf, hveq]
  · intro f hf hv
    have hcomp : vote_feature fid u db =
        ({ db with
            votes := db.votes ++ [⟨u, fid⟩],
            features := updateFirstFeature fid
              (fun x => { x with vote_count := x.vote_count + 1 }) db.features },
         .ok (f.vote_count + 1)) := by
      unfold vote_feature
      rw [if_neg hpos, hf, hv]
    rw [hcomp]
    refine ⟨rfl, rfl, ?_, ?_, rfl⟩
    · exact find?_updateFirstFeature_self fid
        (fun x => { x with vote_count := x.vote_count + 1 }) (fun x => rfl) db.features f hf
    · intro fid2 hne
      exact find?_updateFirstFeature_ne fid fid2 hne
        (fun x => { x with vote_count := x.vote_count + 1 }) (fun x => rfl) db.features

/-- Witness for C2: casting user 2's vote on existing feature 1 (no prior
vote) inserts the row, bumps the counter from 0 to 1 and returns 1. -/
theorem vote_feature_spec_witness :
    (vote_feature 1 2 ⟨[⟨1, "t", "d", 1, 0⟩], [], []⟩).2 = .ok 1 ∧
    (vote_feature 1 2 ⟨[⟨1, "t", "d", 1, 0⟩], [], []⟩).1.votes = [⟨2, 1⟩] ∧
    lookupFeature 1 (vote_feature 1 2 ⟨[⟨1, "t", "d", 1, 0⟩], [], []⟩).1 =
      some ⟨1, "t", "d", 1, 1⟩ ∧
    (∀ fid2, fid2 ≠ (1 : Int) →
      lookupFeature fid2 (vote_feature 1 2 ⟨[⟨1, "t", "d", 1, 0⟩], [], []⟩).1 =
        lookupFeature fid2 ⟨[⟨1, "t", "d", 1, 0⟩], [], []⟩) ∧
    (vote_feature 1 2 ⟨[⟨1, "t", "d", 1, 0⟩], [], []⟩).1.users = [] :=
  (vote_feature_spec ⟨[⟨1, "t", "d", 1, 0⟩], [], []⟩ 2 1 (by decide)).2.2
    ⟨1, "t", "d", 1, 0⟩ rfl rfl

/-- C3: For a positive feature id, RetractVote fails with FeatureNotFound when
no feature with that id exists, fails with VoteNotFound when no Vote row for
(user_id, feature_id) exists, and otherwise deletes that Vote row (the ledger
count for the feature drops by exactly one), sets the feature's `vote_count`
to `max 0 (vote_count - 1)` — never negative even if the counter was already
0 — leaves every other feature unchanged, and returns the new `vote_count`.
(Non-positive ids are rejected by the guard before the lookup; see C10.) -/
theorem remove_vote_spec (db : DB) (u fid : Int) (hfid : 0 < fid) :
    (lookupFeature fid db = none →
      remove_vote fid u db = (db, .error .featureNotFound)) ∧
    (∀ f, lookupFeature fid db = some f → lookupVote u fid db = none →
      remove_vote fid u db = (db, .error .voteNotFound)) ∧
    (∀ f v, lookupFeature fid db = some f → lookupVote u fid db = some v →
      (remove_vote fid u db).2 = .ok (max 0 (f.vote_count - 1)) ∧
      countVotesFor fid (remove_vote fid u db).1.votes + 1 = countVotesFor fid db.votes ∧
      (remove_vote fid u db).1.votes =
        db.votes.eraseP (fun w => w.user_id == u && w.feature_id == fid) ∧
      lookupFeature fid (remove_vote fid u db).1 =
        some { f with vote_count := max 0 (f.vote_count - 1) } ∧
      (∀ fid2, fid2 ≠ fid →
        lookupFeature fid2 (remove_vote fid u db).1 = lookupFeature fid2 db) ∧
      (remove_vote fid u db).1.users = db.users) := by
  have hpos : ¬(fid ≤ 0) := by omega
  refine ⟨?_, ?_, ?_⟩
  · intro hn
    unfold remove_vote
    rw [if_neg hpos, hn]
  · intro f hf hv
    unfold remove_vote
    rw [if_neg hpos, hf, hv]
  · intro f v hf hv
    have hcomp : remove_vote fid u db =
        ({ db with
            votes := db.votes.eraseP (fun w => w.user_id == u && w.feature_id == fid),
            features := updateFirstFeature fid
              (fun x => { x with vote_count := max 0 (x.vote_count - 1) }) db.features },
         .ok (max 0 (f.vote_count - 1))) := by
      unfold remove_vote
      rw [if_neg hpos, hf, hv]
    have hq := List.find?_some
      (show db.votes.find? (fun w => w.user_id == u && w.feature_id == fid) = some v from hv)
    have hvfid : v.feature_id = fid := by
      simp only [Bool.and_eq_true, beq_iff_eq] at hq
      exact hq.2
    have hcount := countP_eq_countP_eraseP (fun w => w.feature_id == fid)
      (fun w => w.user_id == u && w.feature_id == fid) db.votes v hv
    rw [if_pos (by simp [hvfid])] at hcount
    rw [hcomp]
    refine ⟨rfl, ?_, rfl, ?_, ?_, rfl⟩
    · unfold countVotesFor
      dsimp only
      omega
    · exact find?_updateFirstFeature_self fid
        (fun x => { x with vote_count := max 0 (x.vote_count - 1) }) (fun x => rfl)
        db.features f hf
    · intro fid2 hne
      exact find?_updateFirstFeature_ne fid fid2 hne
        (fun x => { x with vote_count := max 0 (x.vote_count - 1) }) (fun x => rfl) db.features

/-- Witness for C3: retracting user 2's existing vote on feature 1 removes the
row, drops the counter from 1 to 0 and returns 0. -/
theorem remove_vote_spec_witness :
    (remove_vote 1 2 ⟨[⟨1, "t", "d", 1, 1⟩], [⟨2, 1⟩], []⟩).2 = .ok 0 ∧
    countVotesFor 1 (remove_vote 1 2 ⟨[⟨1, "t", "d", 1, 1⟩], [⟨2, 1⟩], []⟩).1.votes + 1 =
      countVotesFor 1 [⟨2, 1⟩] ∧
    (remove_vote 1 2 ⟨[⟨1, "t", "d", 1, 1⟩], [⟨2, 1⟩], []⟩).1.votes =
      [Vote.mk 2 1].eraseP (fun w => w.user_id == (2 : Int) && w.feature_id == (1 : Int)) ∧
    lookupFeature 1 (remove_vote 1 2 ⟨[⟨1, "t", "d", 1, 1⟩], [⟨2, 1⟩], []⟩).1 =
      some ⟨1, "t", "d", 1, 0⟩ ∧
    (∀ fid2, fid2 ≠ (1 : Int) →
      lookupFeature fid2 (remove_vote 1 2 ⟨[⟨1, "t", "d", 1, 1⟩], [⟨2, 1⟩], []⟩).1 =
        lookupFeature fid2 ⟨[⟨1, "t", "d", 1, 1⟩], [⟨2, 1⟩], []⟩) ∧
    (remove_vote 1 2 ⟨[⟨1, "t", "d", 1, 1⟩], [⟨2, 1⟩], []⟩).1.users = [] :=
  (remove_vote_spec ⟨[⟨1, "t", "d", 1, 1⟩], [⟨2, 1⟩], []⟩ 2 1 (by decide)).2.2
    ⟨1, "t", "d", 1, 1⟩ ⟨2, 1⟩ rfl rfl

/-- C4: Whenever a CastVote or RetractVote call fails (the id guard,
FeatureNotFound, DuplicateVote, or VoteNotFound), the store — features with
their `vote_count`, the Vote rows, and the users — is exactly as it was before
the call; in particular, retracting a non-existent vote on an existing feature
always fails with VoteNotFound and changes nothing. -/
theorem failed_call_state_unchanged (db : DB) (u fid : Int) :
    (∀ e, (vote_feature fid u db).2 = .error e → (vote_feature fid u db).1 = db) ∧
    (∀ e, (remove_vote fid u db).2 = .error e → (remove_vote fid u db).1 = db) ∧
    (0 < fid → (lookupFeature fid db).isSome = true → lookupVote u fid db = none →
      remove_vote fid u db = (db, .error .voteNotFound)) := by
  refine ⟨?_, ?_, ?_⟩
  · intro e he
    by_cases h0 : fid ≤ 0
    · simp [vote_feature, h0]
    · cases hf : lookupFeature fid db with
      | none => simp [vote_feature, h0, hf]
      | some f =>
        cases hv : lookupVote u fid db with
        | some v => simp [vote_feature, h0, hf, hv]
        | none => simp [vote_feature, h0, hf, hv] at he
  · intro e he
    by_cases h0 : fid ≤ 0
    · simp [remove_vote, h0]
    · cases hf : lookupFeature fid db with
      | none => simp [remove_vote, h0, hf]
      | some f =>
        cases hv : lookupVote u fid db with
        | none => simp [remove_vote, h0, hf, hv]
        | some v => simp [remove_vote, h0, hf, hv] at he
  · intro hpos hf hv
    obtain ⟨f, hfeq⟩ := Option.isSome_iff_exists.mp hf
    unfold remove_vote
    rw [if_neg (by omega), hfeq, hv]

/-- Witness for C4: retracting a vote that was never cast (feature 1 exists,
user 2 has no vote) fails with VoteNotFound and returns the store unchanged. -/
theorem failed_call_state_unchanged_witness :
    remove_vote 1 2 ⟨[⟨1, "t", "d", 1, 0⟩], [], []⟩ =
      (⟨[⟨1, "t", "d", 1, 0⟩], [], []⟩, .error .voteNotFound) :=
  (failed_call_state_unchanged ⟨[⟨1, "t", "d", 1, 0⟩], [], []⟩ 2 1).2.2
    (by decide) (by decide) (by decide)

/-- C5 counterexample: a storage-level uniqueness violation naming the
`_user_feature_vote` constraint is mapped by `integrity_error_handler` to
status 400, while the early application-level check's DuplicateVote maps to
status 409 — the two detection paths do not produce the same error form, so
the claim as stated is false. -/
theorem duplicate_vote_one_shape_counterexample :
    (integrity_error_handler
      "(IntegrityError) duplicate key value violates unique constraint _user_feature_vote").1
        = 400 ∧
    errorStatus .duplicateVote = 409 ∧
    (integrity_error_handler
      "(IntegrityError) duplicate key value violates unique constraint _user_feature_vote").1
        ≠ errorStatus .duplicateVote := by
  refine ⟨by decide, rfl, by decide⟩

/-- C5 amended: a storage-level uniqueness violation on (user_id, feature_id)
that slips past the advisory application-level check is re-classified at the
boundary into a duplicate-vote-specific response — status 400 with payload
type `duplicate_vote_error` — rather than the generic 500 integrity shape;
this differs from the early check's shape (DuplicateVote, status 409), so
callers observe a different error form depending on whether the duplicate was
detected early or late. -/
theorem integrity_race_reclassified (msg : String)
    (h : pyContains msg "_user_feature_vote" = true) :
    integrity_error_handler msg = (400, "duplicate_vote_error") ∧
    integrity_error_handler msg ≠ (500, "integrity_error") ∧
    errorStatus .duplicateVote = 409 := by
  unfold integrity_error_handler
  rw [if_pos h]
  exact ⟨rfl, by decide, rfl⟩

/-- Witness for C5 amended: the concrete constraint-violation message of the
losing racer is re-classified to the 400 duplicate-vote shape. -/
theorem integrity_race_reclassified_witness :
    integrity_error_handler
      "(IntegrityError) UNIQUE constraint _user_feature_vote failed"
        = (400, "duplicate_vote_error") ∧
    integrity_error_handler
      "(IntegrityError) UNIQUE constraint _user_feature_vote failed"
        ≠ (500, "integrity_error") ∧
    errorStatus .duplicateVote = 409 :=
  integrity_race_reclassified
    "(IntegrityError) UNIQUE constraint _user_feature_vote failed" (by decide)

/-- C6: For every valid List(page, page_size) call (page ≥ 1,
page_size ∈ [1,100]) the returned items are ordered by `vote_count`
descending, `total_count` is the table size, `total_pages` is the ceiling of
`total_count / page_size` with `total_pages = 1` when the table is empty,
`has_next = (page < total_pages)`, `has_previous = (page > 1)`, the page holds
`min page_size (total_count - offset)` items; for total_count = 25 and
page_size = 10 this gives total_pages = 3, and page 3 returns 5 items with
has_next = false. -/
theorem read_features_spec (db : DB) (page page_size : Nat)
    (_hpage : 1 ≤ page) (hs1 : 1 ≤ page_size) (_hsmax : page_size ≤ 100) :
    List.Pairwise (fun a b => b.vote_count ≤ a.vote_count)
      (read_features page page_size db).items ∧
    (read_features page page_size db).total_count = db.features.length ∧
    (db.features.length = 0 → (read_features page page_size db).total_pages = 1) ∧
    (0 < db.features.length →
      ((read_features page page_size db).total_pages : ℤ) =
        ⌈(db.features.length : ℚ) / (page_size : ℚ)⌉) ∧
    ((read_features page page_size db).has_next = true ↔
      page < (read_features page page_size db).total_pages) ∧
    ((read_features page page_size db).has_previous = true ↔ 1 < page) ∧
    (read_features page page_size db).items.length =
      min page_size (db.features.length - (page - 1) * page_size) ∧
    (db.features.length = 25 → page_size = 10 →
      (read_features page page_size db).total_pages = 3) ∧
    (db.features.length = 25 → page_size = 10 → page = 3 →
      (read_features page page_size db).items.length = 5 ∧
      (read_features page page_size db).has_next = false) := by
  have hitems : (read_features page page_size db).items =
      ((db.features.mergeSort (fun a b => b.vote_count ≤ a.vote_count)).drop
        ((page - 1) * page_size)).take page_size := rfl
  have htp : (read_features page page_size db).total_pages =
      (if db.features.length > 0
        then (db.features.length + page_size - 1) / page_size else 1) := rfl
  have hnext : (read_features page page_size db).has_next =
      decide (page < (read_features page page_size db).total_pages) := rfl
  have hprev : (read_features page page_size db).has_previous = decide (page > 1) := rfl
  refine ⟨?_, rfl, ?_, ?_, ?_, ?_, ?_, ?_, ?_⟩
  · rw [hitems]
    have hsorted := @List.sorted_mergeSort Feature
      (fun a b : Feature => decide (b.vote_count ≤ a.vote_count))
      (fun a b c hab hbc => by
        simp only [decide_eq_true_eq] at *
        omega)
      (fun a b => by
        simp only [Bool.or_eq_true, decide_eq_true_eq]
        omega)
      db.features
    have hsorted' : List.Pairwise (fun a b : Feature => b.vote_count ≤ a.vote_count)
        (db.features.mergeSort (fun a b => b.vote_count ≤ a.vote_count)) :=
      hsorted.imp (fun h => by exact of_decide_eq_true h)
    exact hsorted'.sublist
      ((List.take_sublist _ _).trans (List.drop_sublist _ _))
  · intro h0
    rw [htp, h0]
    rfl
  · intro hpos
    rw [htp, if_pos hpos]
    have hs : 0 < page_size := hs1
    have hsq : (0 : ℚ) < (page_size : ℚ) := by positivity
    have hdm := Nat.div_add_mod (db.features.length + page_size - 1) page_size
    have hmlt := Nat.mod_lt (db.features.length + page_size - 1) hs
    symm
    rw [Int.ceil_eq_iff]
    set q := (db.features.length + page_size - 1) / page_size with hqdef
    set r := (db.features.length + page_size - 1) % page_size with hrdef
    have hdm' : page_size * q + r + 1 = db.features.length + page_size := by omega
    have hdmQ : (page_size : ℚ) * q + r + 1 = db.features.length + page_size := by
      exact_mod_cast hdm'
    have hrQ1 : (r : ℚ) + 1 ≤ page_size := by exact_mod_cast hmlt
    have hr0 : (0 : ℚ) ≤ r := by positivity
    constructor
    · push_cast
      rw [lt_div_iff₀ hsq]
      nlinarith [hdmQ, hrQ1, hr0]
    · push_cast
      rw [div_le_iff₀ hsq]
      nlinarith [hdmQ, hrQ1, hr0]
  · rw [hnext]
    exact decide_eq_true_iff
  · rw [hprev]
    exact decide_eq_true_iff
  · rw [hitems]
    simp only [List.length_take, List.length_drop, List.length_mergeSort]
  · intro h25 h10
    rw [htp, h25, h10]
    rfl
  · intro h25 h10 h3
    constructor
    · rw [hitems]
      simp only [List.length_take, List.length_drop, List.length_mergeSort]
      rw [h25, h3, h10]
      rfl
    · rw [hnext, htp, h25, h10, h3]
      rfl

/-- Witness for C6: over 25 stored features with page_size 10, page 3 holds 5
items and has no next page. -/
theorem read_features_spec_witness :
    (read_features 3 10 sampleCatalog).items.length = 5 ∧
    (read_features 3 10 sampleCatalog).has_next = false :=
  (read_features_spec sampleCatalog 3 10 (by norm_num) (by norm_num)
    (by norm_num)).2.2.2.2.2.2.2.2 rfl rfl rfl

theorem validateTitleField_ok_iff (t : String) :
    (∃ s, validateTitleField t = .ok s) ↔
      (3 ≤ t.length ∧ t.length ≤ 100 ∧ pyStrip t ≠ "") := by
  unfold validateTitleField
  split_ifs with h1 h2 h3
  · exact ⟨fun ⟨s, hs⟩ => (nomatch hs), fun ⟨ha, _, _⟩ => absurd h1 (Nat.not_lt.mpr ha)⟩
  · exact ⟨fun ⟨s, hs⟩ => (nomatch hs), fun ⟨_, hb, _⟩ => absurd h2 (Nat.not_lt.mpr hb)⟩
  · exact ⟨fun ⟨s, hs⟩ => (nomatch hs), fun ⟨_, _, hc⟩ => absurd h3 hc⟩
  · exact ⟨fun _ => ⟨Nat.le_of_not_lt h1, Nat.le_of_not_lt h2, h3⟩,
      fun _ => ⟨pyStrip t, rfl⟩⟩

theorem validateDescriptionField_ok_iff (d : String) :
    (∃ s, validateDescriptionField d = .ok s) ↔
      (10 ≤ d.length ∧ d.length ≤ 1000 ∧ pyStrip d ≠ "") := by
  unfold validateDescriptionField
  split_ifs with h1 h2 h3
  · exact ⟨fun ⟨s, hs⟩ => (nomatch hs), fun ⟨ha, _, _⟩ => absurd h1 (Nat.not_lt.mpr ha)⟩
  · exact ⟨fun ⟨s, hs⟩ => (nomatch hs), fun ⟨_, hb, _⟩ => absurd h2 (Nat.not_lt.mpr hb)⟩
  · exact ⟨fun ⟨s, hs⟩ => (nomatch hs), fun ⟨_, _, hc⟩ => absurd h3 hc⟩
  · exact ⟨fun _ => ⟨Nat.le_of_not_lt h1, Nat.le_of_not_lt h2, h3⟩,
      fun _ => ⟨pyStrip d, rfl⟩⟩

theorem validateTitleField_ok_eq (t s : String) (h : validateTitleField t = .ok s) :
    s = pyStrip t := by
  unfold validateTitleField at h
  split_ifs at h
  injection h with h
  exact h.symm

theorem validateDescriptionField_ok_eq (d s : String)
    (h : validateDescriptionField d = .ok s) : s = pyStrip d := by
  unfold validateDescriptionField at h
  split_ifs at h
  injection h with h
  exact h.symm

theorem featureCreateValidate_ok_eq (t d : String) (out : FeatureCreate)
    (h : featureCreateValidate t d = .ok out) :
    out.title = pyStrip t ∧ out.description = pyStrip d := by
  unfold featureCreateValidate at h
  cases ht : validateTitleField t with
  | error m => rw [ht] at h; cases hd : validateDescriptionField d <;> rw [hd] at h <;> cases h
  | ok s1 =>
    cases hd : validateDescriptionField d with
    | error m => rw [ht, hd] at h; cases h
    | ok s2 =>
      rw [ht, hd] at h
      injection h with h
      subst h
      exact ⟨(validateTitleField_ok_eq t s1 ht).symm ▸ rfl,
        (validateDescriptionField_ok_eq d s2 hd).symm ▸ rfl⟩

/-- C7 counterexample: the claim says the title is trimmed first and the
bounds then apply to the trimmed title, so `"  a  "` (trimmed length 1) would
be rejected; the code checks `min_length=3` on the raw value (length 5) before
the validator trims, so the request is accepted and the stored title is `"a"`
with length 1 < 3. -/
theorem create_trim_order_counterexample :
    featureCreateValidate "  a  " "a valid description" =
      .ok ⟨"a", "a valid description"⟩ ∧
    (pyStrip "  a  ").length < 3 ∧ 3 ≤ "  a  ".length := by
  refine ⟨rfl, by decide, by decide⟩

/-- C7 amended: Creating a feature enforces the length bounds on the raw
(untrimmed) title and description — title length ∈ [3,100], description
length ∈ [10,1000] — then rejects values that are blank after trimming, and
stores the trimmed strings; when both fields are invalid the ValidationError
payload enumerates both fields (one entry each); on success the stored
feature has `vote_count = 0`. -/
theorem create_feature_validation (t d : String) :
    ((∃ out, featureCreateValidate t d = .ok out) ↔
      ((3 ≤ t.length ∧ t.length ≤ 100 ∧ pyStrip t ≠ "") ∧
       (10 ≤ d.length ∧ d.length ≤ 1000 ∧ pyStrip d ≠ ""))) ∧
    (∀ out, featureCreateValidate t d = .ok out →
      out.title = pyStrip t ∧ out.description = pyStrip d) ∧
    ((¬(3 ≤ t.length ∧ t.length ≤ 100 ∧ pyStrip t ≠ "")) →
     (¬(10 ≤ d.length ∧ d.length ≤ 1000 ∧ pyStrip d ≠ "")) →
      ∃ e1 e2, featureCreateValidate t d = .error [e1, e2]) ∧
    (∀ a db db' f, create_feature t d a db = (db', .ok f) →
      f.vote_count = 0 ∧ f.title = pyStrip t ∧ f.description = pyStrip d ∧
      f.author_id = a ∧ db'.features = db.features ++ [f]) := by
  refine ⟨?_, fun out h => featureCreateValidate_ok_eq t d out h, ?_, ?_⟩
  · constructor
    · rintro ⟨out, hout⟩
      unfold featureCreateValidate at hout
      cases ht : validateTitleField t with
      | error m =>
        rw [ht] at hout
        cases hd : validateDescriptionField d <;> rw [hd] at hout <;> cases hout
      | ok s1 =>
        cases hd : validateDescriptionField d with
        | error m => rw [ht, hd] at hout; cases hout
        | ok s2 =>
          exact ⟨(validateTitleField_ok_iff t).mp ⟨s1, ht⟩,
            (validateDescriptionField_ok_iff d).mp ⟨s2, hd⟩⟩
    · rintro ⟨hta, hda⟩
      obtain ⟨s1, h1⟩ := (validateTitleField_ok_iff t).mpr hta
      obtain ⟨s2, h2⟩ := (validateDescriptionField_ok_iff d).mpr hda
      refine ⟨⟨s1, s2⟩, ?_⟩
      unfold featureCreateValidate
      rw [h1, h2]
  · intro hnt hnd
    have h1 : ∀ s, validateTitleField t ≠ .ok s :=
      fun s hs => hnt ((validateTitleField_ok_iff t).mp ⟨s, hs⟩)
    have h2 : ∀ s, validateDescriptionField d ≠ .ok s :=
      fun s hs => hnd ((validateDescriptionField_ok_iff d).mp ⟨s, hs⟩)
    cases ht : validateTitleField t with
    | ok s => exact absurd ht (h1 s)
    | error m1 =>
      cases hd : validateDescriptionField d with
      | ok s => exact absurd hd (h2 s)
      | error m2 =>
        refine ⟨"title: " ++ m1, "description: " ++ m2, ?_⟩
        unfold featureCreateValidate
        rw [ht, hd]
        rfl
  · intro a db db' f hcf
    unfold create_feature at hcf
    cases hv : featureCreateValidate t d with
    | error e => rw [hv] at hcf; exact absurd (congrArg Prod.snd hcf) (by simp)
    | ok body =>
      rw [hv] at hcf
      obtain ⟨hbt, hbd⟩ := featureCreateValidate_ok_eq t d body hv
      have hdb := congrArg Prod.fst hcf
      have hf := congrArg Prod.snd hcf
      simp only at hdb hf
      injection hf with hf
      subst hf
      subst hdb
      exact ⟨rfl, hbt, hbd, rfl, rfl⟩

/-- Witness for C7 amended: a valid create request stores the trimmed fields
with `vote_count = 0` and appends exactly one row. -/
theorem create_feature_validation_witness :
    (⟨1, "Add dark mode", "Please add a dark mode option", 7, 0⟩ : Feature).vote_count = 0 ∧
    (⟨1, "Add dark mode", "Please add a dark mode option", 7, 0⟩ : Feature).title =
      pyStrip "Add dark mode" ∧
    (⟨1, "Add dark mode", "Please add a dark mode option", 7, 0⟩ : Feature).description =
      pyStrip "Please add a dark mode option" ∧
    (⟨1, "Add dark mode", "Please add a dark mode option", 7, 0⟩ : Feature).author_id = 7 ∧
    (⟨[⟨1, "Add dark mode", "Please add a dark mode option", 7, 0⟩], [], []⟩ : DB).features =
      [] ++ [⟨1, "Add dark mode", "Please add a dark mode option", 7, 0⟩] :=
  (create_feature_validation "Add dark mode" "Please add a dark mode option").2.2.2
    7 ⟨[], [], []⟩
    ⟨[⟨1, "Add dark mode", "Please add a dark mode option", 7, 0⟩], [], []⟩
    ⟨1, "Add dark mode", "Please add a dark mode option", 7, 0⟩ rfl

/-- C8 counterexample: the claim says a supplied title goes through the same
trim-and-bounds validation as Create, so title `"x"` (length 1 < 3) would be
rejected; `FeatureUpdate` has no validators at all and the handler stores the
one-character title verbatim. -/
theorem update_validation_counterexample :
    (update_feature 1 ⟨some "x", none, none⟩
      ⟨[⟨1, "Valid title", "Valid description here", 1, 0⟩], [], []⟩).2 =
        .ok ⟨1, "x", "Valid description here", 1, 0⟩ ∧
    ("x" : String).length < 3 := by
  exact ⟨rfl, by decide⟩

/-- C8 amended: Update(id, partial fields) on an existing feature changes
exactly the caller-supplied fields and leaves every other field, every other
feature, the vote ledger and the users unchanged; a supplied title or
description is stored as-is with no validation or trimming (unlike Create);
a supplied vote_count overwrites the stored counter directly without touching
the vote ledger. -/
theorem update_feature_frame (db : DB) (fid : Int) (upd : FeatureUpdate)
    (hfid : 0 < fid) :
    (lookupFeature fid db = none →
      update_feature fid upd db = (db, .error .featureNotFound)) ∧
    (∀ f, lookupFeature fid db = some f →
      ∃ f', (update_feature fid upd db).2 = .ok f' ∧
        f'.id = f.id ∧
        f'.author_id = f.author_id ∧
        f'.title = upd.title.getD f.title ∧
        f'.description = upd.description.getD f.description ∧
        f'.vote_count = upd.vote_count.getD f.vote_count ∧
        lookupFeature fid (update_feature fid upd db).1 = some f' ∧
        (∀ fid2, fid2 ≠ fid →
          lookupFeature fid2 (update_feature fid upd db).1 = lookupFeature fid2 db) ∧
        (update_feature fid upd db).1.votes = db.votes ∧
        (update_feature fid upd db).1.users = db.users) := by
  have hpos : ¬(fid ≤ 0) := by omega
  refine ⟨?_, ?_⟩
  · intro hn
    unfold update_feature
    rw [if_neg hpos, hn]
  · intro f hf
    have hcomp : update_feature fid upd db =
        ({ db with features := updateFirstFeature fid (applyFeatureUpdate upd) db.features },
         .ok (applyFeatureUpdate upd f)) := by
      unfold update_feature
      rw [if_neg hpos, hf]
    refine ⟨applyFeatureUpdate upd f, ?_, rfl, rfl, rfl, rfl, rfl, ?_, ?_, ?_, ?_⟩
    · rw [hcomp]
    · rw [hcomp]
      exact find?_updateFirstFeature_self fid (applyFeatureUpdate upd)
        (fun x => rfl) db.features f hf
    · intro fid2 hne
      rw [hcomp]
      exact find?_updateFirstFeature_ne fid fid2 hne (applyFeatureUpdate upd)
        (fun x => rfl) db.features
    · rw [hcomp]
    · rw [hcomp]

/-- Witness for C8 amended: updating only vote_count to 99 keeps title,
description and author, bypasses the ledger (votes unchanged), and stores 99. -/
theorem update_feature_frame_witness :
    ∃ f', (update_feature 1 ⟨none, none, some 99⟩
        ⟨[⟨1, "t", "d", 5, 0⟩], [⟨2, 1⟩], []⟩).2 = .ok f' ∧
      f'.id = (1 : Int) ∧
      f'.author_id = (5 : Int) ∧
      f'.title = (none : Option String).getD "t" ∧
      f'.description = (none : Option String).getD "d" ∧
      f'.vote_count = (some (99 : Int)).getD 0 ∧
      lookupFeature 1 (update_feature 1 ⟨none, none, some 99⟩
        ⟨[⟨1, "t", "d", 5, 0⟩], [⟨2, 1⟩], []⟩).1 = some f' ∧
      (∀ fid2, fid2 ≠ (1 : Int) →
        lookupFeature fid2 (update_feature 1 ⟨none, none, some 99⟩
          ⟨[⟨1, "t", "d", 5, 0⟩], [⟨2, 1⟩], []⟩).1 =
          lookupFeature fid2 ⟨[⟨1, "t", "d", 5, 0⟩], [⟨2, 1⟩], []⟩) ∧
      (update_feature 1 ⟨none, none, some 99⟩
        ⟨[⟨1, "t", "d", 5, 0⟩], [⟨2, 1⟩], []⟩).1.votes = [⟨2, 1⟩] ∧
      (update_feature 1 ⟨none, none, some 99⟩
        ⟨[⟨1, "t", "d", 5, 0⟩], [⟨2, 1⟩], []⟩).1.users = [] :=
  (update_feature_frame ⟨[⟨1, "t", "d", 5, 0⟩], [⟨2, 1⟩], []⟩ 1
    ⟨none, none, some 99⟩ (by decide)).2 ⟨1, "t", "d", 5, 0⟩ rfl

theorem classify_username_msg :
    pyContains (pyLower "UNIQUE constraint failed: users.username") "username" = true := by
  decide

theorem classify_email_msg_not_username :
    pyContains (pyLower "UNIQUE constraint failed: users.email") "username" = false := by
  decide

theorem classify_email_msg :
    pyContains (pyLower "UNIQUE constraint failed: users.email") "email" = true := by
  decide

/-- C9: User Create fails when the trimmed username is shorter than 2
characters, or (that passing) when the email does not contain `@`; a
store-level uniqueness violation on username or on email is translated into a
classified invalid-input error naming the colliding field (not a raw storage
error); on success the stored email is the trimmed, lowercased input and the
stored username is the trimmed input. -/
theorem create_user_spec (db : DB) (username email : String) :
    ((pyStrip username).length < 2 →
      create_user username email db =
        (db, .error (.invalidInput "Username must be at least 2 characters long"))) ∧
    (2 ≤ (pyStrip username).length → pyContainsChar email '@' = false →
      create_user username email db =
        (db, .error (.invalidInput "Valid email address is required"))) ∧
    (2 ≤ (pyStrip username).length → pyContainsChar email '@' = true →
      (db.users.any (fun x => x.username == pyStrip username)) = true →
      create_user username email db =
        (db, .error (.invalidInput "Username already exists"))) ∧
    (2 ≤ (pyStrip username).length → pyContainsChar email '@' = true →
      (db.users.any (fun x => x.username == pyStrip username)) = false →
      (db.users.any (fun x => x.email == pyLower (pyStrip email))) = true →
      create_user username email db =
        (db, .error (.invalidInput "Email already exists"))) ∧
    (2 ≤ (pyStrip username).length → pyContainsChar email '@' = true →
      (db.users.any (fun x => x.username == pyStrip username)) = false →
      (db.users.any (fun x => x.email == pyLower (pyStrip email))) = false →
      ∃ u, create_user username email db = ({ db with users := db.users ++ [u] }, .ok u) ∧
        u.username = pyStrip username ∧ u.email = pyLower (pyStrip email)) := by
  have hstrip_empty : pyStrip "" = "" := rfl
  refine ⟨?_, ?_, ?_, ?_, ?_⟩
  · intro hlt
    unfold create_user
    rw [if_pos (by simp [hlt])]
  · intro hge hat
    have hne : ¬(username = "") := by
      intro hc
      rw [hc, hstrip_empty] at hge
      exact absurd hge (by decide)
    unfold create_user
    rw [if_neg (by simp [hne]; omega), if_pos (by simp [hat])]
  · intro hge hat hdup
    have hne : ¬(username = "") := by
      intro hc
      rw [hc, hstrip_empty] at hge
      exact absurd hge (by decide)
    have hene : ¬(email = "") := by
      intro hc
      rw [hc] at hat
      exact absurd hat (by decide)
    unfold create_user
    rw [if_neg (by simp [hne]; omega), if_neg (by simp [hene, hat])]
    unfold insertUser
    simp [hdup, classify_username_msg]
  · intro hge hat hnodup hedup
    have hne : ¬(username = "") := by
      intro hc
      rw [hc, hstrip_empty] at hge
      exact absurd hge (by decide)
    have hene : ¬(email = "") := by
      intro hc
      rw [hc] at hat
      exact absurd hat (by decide)
    unfold create_user
    rw [if_neg (by simp [hne]; omega), if_neg (by simp [hene, hat])]
    unfold insertUser
    simp [hnodup, hedup, classify_email_msg_not_username, classify_email_msg]
  · intro hge hat hnodup hnoedup
    have hne : ¬(username = "") := by
      intro hc
      rw [hc, hstrip_empty] at hge
      exact absurd hge (by decide)
    have hene : ¬(email = "") := by
      intro hc
      rw [hc] at hat
      exact absurd hat (by decide)
    refine ⟨⟨nextUserId db, pyStrip username, pyLower (pyStrip email)⟩, ?_, rfl, rfl⟩
    unfold create_user
    rw [if_neg (by simp [hne]; omega), if_neg (by simp [hene, hat])]
    unfold insertUser
    simp [hnodup, hnoedup]

/-- Witness for C9: registering alice with mixed-case email stores the
lowercased address. -/
theorem create_user_spec_witness :
    ∃ u, create_user "alice" "A@X.com" ⟨[], [], []⟩ =
        ({ features := [], votes := [], users := [] ++ [u] }, .ok u) ∧
      u.username = pyStrip "alice" ∧ u.email = pyLower (pyStrip "A@X.com") :=
  (create_user_spec ⟨[], [], []⟩ "alice" "A@X.com").2.2.2.2
    (by decide) (by decide) rfl rfl

/-- C10: Every feature-id-taking vote or update endpoint and the user-read
endpoint rejects a non-positive id with a 400-class invalid-input error
raised before any store lookup: for every store the call returns that error
with the store unchanged (so the 404 not-found error is never produced for
such ids and no state is read or changed). -/
theorem nonpositive_id_guard (db : DB) (i u : Int) (upd : FeatureUpdate)
    (hle : i ≤ 0) :
    vote_feature i u db = (db, .error (.httpBadRequest "Feature ID must be positive")) ∧
    remove_vote i u db = (db, .error (.httpBadRequest "Feature ID must be positive")) ∧
    update_feature i upd db = (db, .error (.httpBadRequest "Feature ID must be positive")) ∧
    read_user i db = .error (.invalidInput "User ID must be positive") ∧
    errorStatus (.httpBadRequest "Feature ID must be positive") = 400 ∧
    errorStatus (.invalidInput "User ID must be positive") = 400 := by
  refine ⟨?_, ?_, ?_, ?_, rfl, rfl⟩
  · unfold vote_feature
    rw [if_pos hle]
  · unfold remove_vote
    rw [if_pos hle]
  · unfold update_feature
    rw [if_pos hle]
  · unfold read_user
    rw [if_pos hle]

/-- Witness for C10: id 0 is rejected with the 400-class guard error on all
four endpoints, leaving a non-trivial store untouched. -/
theorem nonpositive_id_guard_witness :
    vote_feature 0 1 ⟨[⟨1, "t", "d", 1, 0⟩], [], [⟨1, "alice", "a@x.com"⟩]⟩ =
      (⟨[⟨1, "t", "d", 1, 0⟩], [], [⟨1, "alice", "a@x.com"⟩]⟩,
       .error (.httpBadRequest "Feature ID must be positive")) ∧
    remove_vote 0 1 ⟨[⟨1, "t", "d", 1, 0⟩], [], [⟨1, "alice", "a@x.com"⟩]⟩ =
      (⟨[⟨1, "t", "d", 1, 0⟩], [], [⟨1, "alice", "a@x.com"⟩]⟩,
       .error (.httpBadRequest "Feature ID must be positive")) ∧
    update_feature 0 ⟨none, none, none⟩
        ⟨[⟨1, "t", "d", 1, 0⟩], [], [⟨1, "alice", "a@x.com"⟩]⟩ =
      (⟨[⟨1, "t", "d", 1, 0⟩], [], [⟨1, "alice", "a@x.com"⟩]⟩,
       .error (.httpBadRequest "Feature ID must be positive")) ∧
    read_user 0 ⟨[⟨1, "t", "d", 1, 0⟩], [], [⟨1, "alice", "a@x.com"⟩]⟩ =
      .error (.invalidInput "User ID must be positive") ∧
    errorStatus (.httpBadRequest "Feature ID must be positive") = 400 ∧
    errorStatus (.invalidInput "User ID must be positive") = 400 :=
  nonpositive_id_guard ⟨[⟨1, "t", "d", 1, 0⟩], [], [⟨1, "alice", "a@x.com"⟩]⟩
    0 1 ⟨none, none, none⟩ (by decide)

end FeatureVoting
